import Mathlib

/-!
# Verification of the p2pool block notifier core (src/main.go)

A shallow embedding of the change-detection and notification-fanout loop of
`src/main.go`. Pure data transformations are translated to Lean functions;
the interactions with the outside world (the HTTP request of `fetchLastBlock`,
the subscriber file of `getSubscribers`, the `bot.Send` calls of
`tryNotifyIfNewBlock`) are made explicit as an environment value describing
what the outside world answers, so that each Go function becomes a total
function of its environment and state.
-/

set_option autoImplicit false

namespace P2pool

/-- `type block struct { height int; ts time.Time }` (src/main.go lines 31-34).
`ts` is modelled as the `time.Time` value's milliseconds since the Unix epoch
(the code only ever constructs it via `time.UnixMilli`). -/
structure Block where
  height : Int
  ts : Int
  deriving Repr, DecidableEq

/-- `time.Time{}.UnixMilli()`: the Go zero time (January 1, year 1 UTC)
expressed in milliseconds since the Unix epoch. -/
def goZeroTimeUnixMilli : Int := -62135596800000

/-- `var lastBlockChecked = block{}` (src/main.go line 27): the Go zero value
of `block`, i.e. height `0` and the zero `time.Time`. -/
def lastBlockCheckedInit : Block :=
  ⟨0, goZeroTimeUnixMilli⟩

/-- The guard of src/main.go line 145, `lastBlock.height != lastBlockChecked.height`,
viewed as the ChangeDetector's `isNewEvent`: the candidate is a new event iff its
height differs from the height of the last acknowledged block. -/
def isNewEvent (lastBlockChecked candidate : Block) : Bool :=
  candidate.height != lastBlockChecked.height

/-- The assignment of src/main.go line 146, `lastBlockChecked = lastBlock`,
viewed as the ChangeDetector's `acknowledge`: the acknowledged state is
overwritten with the candidate. -/
def acknowledge (_lastBlockChecked candidate : Block) : Block :=
  candidate

/-! ## JSON payloads and `fetchLastBlock` (src/main.go lines 192-235) -/

/-- A decoded JSON value, as Go's `encoding/json` produces inside
`map[string]interface{}`. Go decodes every JSON number to `float64`; the
payloads this program accepts carry integral block heights and epoch
milliseconds, so numbers are modelled as integers. -/
inductive Json where
  | num (v : Int)
  | str (s : String)
  | boolean (b : Bool)
  | null
  | arr (elems : List Json)
  | obj (fields : List (String × Json))

/-- Go map indexing `m["k"]` on a decoded JSON object (keys are unique after
decoding, so first match suffices). -/
def mapLookup (m : List (String × Json)) (k : String) : Option Json :=
  match m with
  | [] => none
  | (k', v) :: rest => if k' = k then some v else mapLookup rest k

/-- What `io.ReadAll(res.Body)` followed by
`json.Unmarshal(body, &blocks)` with `blocks : []map[string]interface{}` can
yield: a read error, an unmarshal error (the body is not a JSON array of
objects), or the decoded list of objects. -/
inductive Body where
  | readError
  | unparseable
  | parsed (blocks : List (List (String × Json)))

/-- The outcome of `http.Get(blocksURL)`: either a transport error
(connection refused, timeout, ...) or a response carrying a status code and
a body. -/
inductive HttpResult where
  | transportError
  | response (status : Nat) (body : Body)

/-- The errors `fetchLastBlock` can return: the `http.Get` error, the
`io.ReadAll` error, the `json.Unmarshal` error, or
`errUnexpectedStructure` (src/main.go line 28, "unexpected response
structure"). -/
inductive FetchErr where
  | transport
  | bodyRead
  | unmarshal
  | unexpectedStructure
  deriving Repr, DecidableEq

/-- `fetchLastBlock` (src/main.go lines 192-235) as a function of the HTTP
outcome. The status code of a response is never inspected by the code.
On a decoded array it takes element 0, requires key `height` to exist and be
a number, requires key `ts` to be a number (one type assertion covers a
missing key and a wrong type), and builds
`block{height: int(lastHeight), ts: time.UnixMilli(int64(lastTs))}`. -/
def fetchLastBlock (r : HttpResult) : Except FetchErr Block :=
  match r with
  | .transportError => .error .transport
  | .response _ body =>
    match body with
    | .readError => .error .bodyRead
    | .unparseable => .error .unmarshal
    | .parsed blocks =>
      match blocks with
      | [] => .error .unexpectedStructure
      | b0 :: _ =>
        match mapLookup b0 "height" with
        | none => .error .unexpectedStructure
        | some hv =>
          match hv with
          | .num lastHeight =>
            match mapLookup b0 "ts" with
            | some (.num lastTs) => .ok ⟨lastHeight, lastTs⟩
            | _ => .error .unexpectedStructure
          | _ => .error .unexpectedStructure

/-! ## The subscriber file and `getSubscribers` (src/main.go lines 164-190) -/

/-- `strconv.ParseInt(s, 10, 64)` as a partial function: an optional sign
followed by at least one decimal digit, the value fitting in a signed
64-bit integer; anything else (including overflow) makes Go return a
non-nil error, modelled as `none`. -/
def digitVal? (c : Char) : Option Nat :=
  if '0' ≤ c ∧ c ≤ '9' then some (c.toNat - '0'.toNat) else none

/-- Accumulate decimal digits left to right; `none` on the first non-digit. -/
def digitsToNat? (cs : List Char) : Option Nat :=
  cs.foldl
    (fun acc c =>
      match acc, digitVal? c with
      | some n, some d => some (n * 10 + d)
      | _, _ => none)
    (some 0)

/-- `strconv.ParseInt(s, 10, 64)`: `some` of the parsed value, or `none`
when Go would return an error. -/
def parseInt64? (s : String) : Option Int :=
  match s.toList with
  | [] => none
  | c :: rest =>
    let signedDigits : Bool × List Char :=
      if c = '-' then (true, rest)
      else if c = '+' then (false, rest)
      else (false, c :: rest)
    match signedDigits with
    | (_, []) => none
    | (neg, ds) =>
      match digitsToNat? ds with
      | none => none
      | some n =>
        if neg then
          if (n : Int) ≤ 2 ^ 63 then some (-(n : Int)) else none
        else
          if (n : Int) ≤ 2 ^ 63 - 1 then some (n : Int) else none

/-- The outcome of `os.Open` plus the `bufio.Scanner` reads in
`getSubscribers`: either the open fails with a `*fs.PathError` (the only
error type `os.Open` produces; `notExist` records whether the underlying
cause was absence of the file, e.g. `false` for a permission error), or the
file opens and the scanner delivers `lines`, after which `scanner.Err()` is
non-nil iff `readErr` (a read error cuts the line stream short). -/
inductive FileOpen where
  | openFailed (notExist : Bool)
  | opened (lines : List String) (readErr : Bool)
  deriving Repr, DecidableEq

/-- The errors `getSubscribers` can return: the `strconv.ParseInt` error for
the offending line, or the `scanner.Err()` read error. -/
inductive SubsErr where
  | parse (line : String)
  | read
  deriving Repr, DecidableEq

/-- The scan loop of src/main.go lines 177-183: parse each line in order,
returning the first line that fails to parse, otherwise the list of ids. -/
def scanLines : List String → Except String (List Int)
  | [] => .ok []
  | l :: rest =>
    match parseInt64? l with
    | none => .error l
    | some id =>
      match scanLines rest with
      | .error bad => .error bad
      | .ok ids => .ok (id :: ids)

/-- `getSubscribers` (src/main.go lines 164-190), returning the Go pair
`([]int64, error)` as `(ids, err)`. When `os.Open` fails the code checks
`errors.As(err, &pErr)` for `*fs.PathError` — which every `os.Open` error
satisfies, whatever its cause — logs "no subscribers yet, skip" and returns
`(nil, nil)`. Otherwise it scans lines, returns `(nil, err)` on the first
`ParseInt` failure, then `(nil, err)` if `scanner.Err()` is non-nil, else
`(ids, nil)`. -/
def getSubscribers (f : FileOpen) : List Int × Option SubsErr :=
  match f with
  | .openFailed _ => ([], none)
  | .opened lines readErr =>
    match scanLines lines with
    | .error bad => ([], some (.parse bad))
    | .ok ids =>
      if readErr then ([], some .read) else (ids, none)

/-! ## The notification tick `tryNotifyIfNewBlock` (src/main.go lines 139-162) -/

/-- The fanout loop of src/main.go lines 152-158: for each id in order,
`bot.Send` is attempted (`sendOk id` tells whether the transport delivers);
on the first failure the function returns that send's error immediately.
Result: the list of ids for which `bot.Send` was called, and the id whose
send failed, if any. -/
def sendLoop (sendOk : Int → Bool) : List Int → List Int × Option Int
  | [] => ([], none)
  | id :: rest =>
    if sendOk id then
      match sendLoop sendOk rest with
      | (attempted, failed) => (id :: attempted, failed)
    else ([id], some id)

/-- The outside world one tick interacts with: the HTTP outcome of
`fetchLastBlock`, the file-system outcome seen by `getSubscribers`, and
which `bot.Send` calls succeed. -/
structure Env where
  http : HttpResult
  subsFile : FileOpen
  sendOk : Int → Bool

/-- The error `tryNotifyIfNewBlock` returns: the fetch error, the
`getSubscribers` error, or the `bot.Send` error of the named subscriber. -/
inductive TickErr where
  | fetch (e : FetchErr)
  | subs (e : SubsErr)
  | send (id : Int)
  deriving Repr, DecidableEq

/-- The observable outcome of one tick: the value of `lastBlockChecked`
afterwards, whether `getSubscribers` was called, the ids for which
`bot.Send` was called, and the returned error. -/
structure TickOut where
  state : Block
  listed : Bool
  attempted : List Int
  err : Option TickErr
  deriving Repr, DecidableEq

/-- `tryNotifyIfNewBlock` (src/main.go lines 139-162) over the current
`lastBlockChecked`. On fetch error, return it. If the fetched height
differs from the acknowledged height, first overwrite `lastBlockChecked`
with the fetched block, then read the subscribers (returning the error if
that fails), then run the fanout loop. Otherwise do nothing. -/
def tryNotifyIfNewBlock (env : Env) (lastBlockChecked : Block) : TickOut :=
  match fetchLastBlock env.http with
  | .error e => ⟨lastBlockChecked, false, [], some (.fetch e)⟩
  | .ok lastBlock =>
    if isNewEvent lastBlockChecked lastBlock then
      let newState := acknowledge lastBlockChecked lastBlock
      match getSubscribers env.subsFile with
      | (_, some e) => ⟨newState, true, [], some (.subs e)⟩
      | (ids, none) =>
        match sendLoop env.sendOk ids with
        | (attempted, failed) => ⟨newState, true, attempted, failed.map TickErr.send⟩
    else
      ⟨lastBlockChecked, false, [], none⟩

/-! ## Concrete environments used to instantiate the theorems -/

/-- A tick environment in which the fetch yields a block of height 100,
the subscriber file holds the three ids 1, 2, 3, and the transport fails
exactly on the send to id 2. -/
def envSecondSendFails : Env :=
  ⟨.response 200 (.parsed [[("height", Json.num 100), ("ts", Json.num 1700000000000)]]),
   .opened ["1", "2", "3"] false,
   fun id => id != 2⟩

/-- A tick environment in which the fetch yields a block of height 100 and
the subscriber file holds one unparseable line. -/
def envSubsFileCorrupt : Env :=
  ⟨.response 200 (.parsed [[("height", Json.num 100), ("ts", Json.num 1700000000000)]]),
   .opened ["abc"] false,
   fun _ => true⟩

/-- A tick environment in which the fetch yields a block of height 100 with
a later timestamp, and the subscriber file holds the single id 1. -/
def envSameHeightLaterTs : Env :=
  ⟨.response 200 (.parsed [[("height", Json.num 100), ("ts", Json.num 1700000600000)]]),
   .opened ["1"] false,
   fun _ => true⟩

/-! ## Helper lemmas about one tick -/

/-- A failed fetch leaves the state alone, lists nothing and sends nothing. -/
theorem tryNotify_fetch_error (env : Env) (s : Block) (e : FetchErr)
    (hf : fetchLastBlock env.http = .error e) :
    tryNotifyIfNewBlock env s = ⟨s, false, [], some (.fetch e)⟩ := by
  simp [tryNotifyIfNewBlock, hf]

/-- A fetched block of the acknowledged height leaves the state alone,
lists nothing, sends nothing and returns no error. -/
theorem tryNotify_same_height (env : Env) (s b : Block)
    (hf : fetchLastBlock env.http = .ok b) (hh : b.height = s.height) :
    tryNotifyIfNewBlock env s = ⟨s, false, [], none⟩ := by
  simp [tryNotifyIfNewBlock, hf, isNewEvent, hh]

/-- On a new height with a failing subscriber listing, the tick acknowledges
the candidate, attempts no send, and returns the listing error. -/
theorem tryNotify_subs_error (env : Env) (s b : Block) (e : SubsErr)
    (hf : fetchLastBlock env.http = .ok b) (hnew : b.height ≠ s.height)
    (hs : (getSubscribers env.subsFile).2 = some e) :
    tryNotifyIfNewBlock env s = ⟨b, true, [], some (.subs e)⟩ := by
  have hev : isNewEvent s b = true := by
    simp [isNewEvent]
    exact hnew
  cases hgs : getSubscribers env.subsFile with
  | mk ids errv =>
    rw [hgs] at hs
    simp only at hs
    subst hs
    simp only [tryNotifyIfNewBlock, hf, hev, if_true, hgs, acknowledge]

/-- On a new height with a successful subscriber listing, the tick
acknowledges the candidate and runs the fanout loop over the listed ids. -/
theorem tryNotify_subs_ok (env : Env) (s b : Block) (ids : List Int)
    (hf : fetchLastBlock env.http = .ok b) (hnew : b.height ≠ s.height)
    (hs : getSubscribers env.subsFile = (ids, none)) :
    tryNotifyIfNewBlock env s =
      ⟨b, true, (sendLoop env.sendOk ids).1,
       (sendLoop env.sendOk ids).2.map TickErr.send⟩ := by
  have hev : isNewEvent s b = true := by
    simp [isNewEvent]
    exact hnew
  simp only [tryNotifyIfNewBlock, hf, hev, if_true, hs, acknowledge]

/-- If some line of the file fails to parse, the scan loop returns the
first such line as its error. -/
theorem scanLines_error_of_bad : ∀ lines : List String,
    (∃ l ∈ lines, parseInt64? l = none) →
    ∃ bad, scanLines lines = .error bad ∧ parseInt64? bad = none
  | [], h => by simp at h
  | l :: rest, h => by
    cases hl : parseInt64? l with
    | none => exact ⟨l, by simp [scanLines, hl], hl⟩
    | some v =>
      have hrest : ∃ x ∈ rest, parseInt64? x = none := by
        rcases h with ⟨x, hx, hpx⟩
        rcases List.mem_cons.mp hx with hxl | hx'
        · rw [hxl, hl] at hpx
          cases hpx
        · exact ⟨x, hx', hpx⟩
      rcases scanLines_error_of_bad rest hrest with ⟨bad, hb, hpb⟩
      exact ⟨bad, by simp [scanLines, hl, hb], hpb⟩

/-- `fetchLastBlock` on a decoded non-empty array is determined by the
`height` and `ts` entries of element 0. -/
theorem fetchLastBlock_parsed_cons (status : Nat) (b0 : List (String × Json))
    (rest : List (List (String × Json))) :
    fetchLastBlock (.response status (.parsed (b0 :: rest))) =
      match mapLookup b0 "height", mapLookup b0 "ts" with
      | some (.num h), some (.num t) => .ok ⟨h, t⟩
      | _, _ => .error .unexpectedStructure := by
  show (match mapLookup b0 "height" with
    | none => (Except.error FetchErr.unexpectedStructure : Except FetchErr Block)
    | some hv =>
      match hv with
      | .num lastHeight =>
        match mapLookup b0 "ts" with
        | some (.num lastTs) => Except.ok (Block.mk lastHeight lastTs)
        | _ => Except.error FetchErr.unexpectedStructure
      | _ => Except.error FetchErr.unexpectedStructure) = _
  cases mapLookup b0 "height" with
  | none => rfl
  | some hv =>
    cases hv with
    | num h =>
      cases ht : mapLookup b0 "ts" with
      | none => rfl
      | some tv => cases tv <;> rfl
    | str sv => rfl
    | boolean bv => rfl
    | null => rfl
    | arr xs => rfl
    | obj fs => rfl

/-! ## The claims -/

/-- C1: after acknowledging `B1`, detecting `B2` yields `isNewEvent = true`
iff `B2.height ≠ B1.height` — false when the heights are equal, true
whenever they differ, whether `B2.height` is smaller or larger. -/
theorem isNewEvent_after_acknowledge_iff (s B1 B2 : Block) :
    isNewEvent (acknowledge s B1) B2 = true ↔ B2.height ≠ B1.height := by
  simp [isNewEvent, acknowledge]

/-- C2 counterexample: the initial `lastBlockChecked` is the Go zero value
`block\x7b\x7d`, whose height is `0`, not a `-1` sentinel; a first fetched block of
height `0` (which is `≥ 0`) is NOT treated as a new event. -/
theorem init_height_zero_first_fetch_missed :
    lastBlockCheckedInit.height = 0 ∧
    isNewEvent lastBlockCheckedInit ⟨0, 1700000000000⟩ = false :=
  ⟨rfl, rfl⟩

/-- C2 (amended): `lastBlockChecked` starts as the zero-value block of
height `0`; the first successful fetch is treated as a new event iff its
height differs from `0`, so every first block of height `≥ 1` is new, while
a first block of height `0` would not be. -/
theorem init_first_fetch_new_iff_height_nonzero (b : Block) :
    isNewEvent lastBlockCheckedInit b = true ↔ b.height ≠ 0 := by
  simp [isNewEvent, lastBlockCheckedInit]

/-- C3 (code defect): with subscribers `[1, 2, 3]` and the send to `2`
failing, the tick returns on the first failure: ids 1 and 2 are attempted,
the send error for 2 is returned, and id 3 is never attempted. -/
theorem fanout_aborts_on_first_failure :
    (tryNotifyIfNewBlock envSecondSendFails lastBlockCheckedInit).attempted = [1, 2] ∧
    (tryNotifyIfNewBlock envSecondSendFails lastBlockCheckedInit).err = some (.send 2) ∧
    (3 : Int) ∉ (tryNotifyIfNewBlock envSecondSendFails lastBlockCheckedInit).attempted := by
  refine ⟨rfl, rfl, ?_⟩
  have h : (tryNotifyIfNewBlock envSecondSendFails lastBlockCheckedInit).attempted
      = [1, 2] := rfl
  rw [h]
  decide

/-- C4: on a detected new event the acknowledged state is overwritten with
the candidate even when the subscriber listing fails — so the overwrite
precedes the listing — in which case nothing is sent and the listing error
is returned; a later tick fetching the same height then detects nothing and
leaves the state at the candidate. -/
theorem acknowledge_precedes_fanout (env env' : Env) (s b b' : Block) (e : SubsErr)
    (hf : fetchLastBlock env.http = .ok b)
    (hnew : b.height ≠ s.height)
    (hsub : (getSubscribers env.subsFile).2 = some e)
    (hf' : fetchLastBlock env'.http = .ok b')
    (hh' : b'.height = b.height) :
    tryNotifyIfNewBlock env s = ⟨b, true, [], some (.subs e)⟩ ∧
    tryNotifyIfNewBlock env' (tryNotifyIfNewBlock env s).state = ⟨b, false, [], none⟩ := by
  have h1 := tryNotify_subs_error env s b e hf hnew hsub
  refine ⟨h1, ?_⟩
  rw [h1]
  exact tryNotify_same_height env' b b' hf' hh'

/-- C4 witness: height 100 arrives over height 0, the subscriber file holds
the unparseable line "abc"; the state still becomes the height-100 block,
nothing is sent, and a second tick fetching height 100 again is silent. -/
theorem acknowledge_precedes_fanout_witness :
    tryNotifyIfNewBlock envSubsFileCorrupt lastBlockCheckedInit =
      ⟨⟨100, 1700000000000⟩, true, [], some (.subs (.parse "abc"))⟩ ∧
    tryNotifyIfNewBlock envSameHeightLaterTs
        (tryNotifyIfNewBlock envSubsFileCorrupt lastBlockCheckedInit).state =
      ⟨⟨100, 1700000000000⟩, false, [], none⟩ :=
  acknowledge_precedes_fanout envSubsFileCorrupt envSameHeightLaterTs
    lastBlockCheckedInit ⟨100, 1700000000000⟩ ⟨100, 1700000600000⟩ (.parse "abc")
    rfl (by decide) rfl rfl rfl

/-- C5: listing subscribers when the file is missing returns the empty list
and no error. -/
theorem getSubscribers_missing_file :
    getSubscribers (.openFailed true) = ([], none) := rfl

/-- C6: if any line of the subscriber file fails to parse as a decimal
signed 64-bit integer, `getSubscribers` returns the empty list — no partial
result — together with the parse error for an unparseable line. -/
theorem getSubscribers_bad_line_fails (lines : List String) (readErr : Bool)
    (h : ∃ l ∈ lines, parseInt64? l = none) :
    (getSubscribers (.opened lines readErr)).1 = [] ∧
    ∃ bad, (getSubscribers (.opened lines readErr)).2 = some (.parse bad) ∧
      parseInt64? bad = none := by
  rcases scanLines_error_of_bad lines h with ⟨bad, hb, hpb⟩
  refine ⟨?_, bad, ?_, hpb⟩ <;> simp [getSubscribers, hb]

/-- C6 witness: the file `["12", "abc", "3"]` yields no ids and a parse
error. -/
theorem getSubscribers_bad_line_fails_witness :
    (getSubscribers (.opened ["12", "abc", "3"] false)).1 = [] ∧
    ∃ bad, (getSubscribers (.opened ["12", "abc", "3"] false)).2 = some (.parse bad) ∧
      parseInt64? bad = none :=
  getSubscribers_bad_line_fails ["12", "abc", "3"] false ⟨"abc", by decide, by decide⟩

/-- C7 (code defect): an open failure that is NOT absence of the file
(recorded as `notExist = false`, e.g. permission denied) is also an
`*fs.PathError`, so the code swallows it too and returns the empty list
with no error instead of failing. -/
theorem getSubscribers_open_error_swallowed :
    getSubscribers (.openFailed false) = ([], none) := rfl

/-- C8: on a decoded array `fetchLastBlock` returns the "unexpected
response structure" error iff the array is empty or element 0 lacks a
numeric `height` or a numeric `ts`; with both fields numeric it returns the
block of that height and that `ts` value (epoch milliseconds). -/
theorem fetchLastBlock_schema (status : Nat) (blocks : List (List (String × Json))) :
    (fetchLastBlock (.response status (.parsed blocks)) = .error .unexpectedStructure ↔
      blocks = [] ∨ ∃ b0 rest, blocks = b0 :: rest ∧
        ((¬ ∃ h, mapLookup b0 "height" = some (.num h)) ∨
         ¬ ∃ t, mapLookup b0 "ts" = some (.num t))) ∧
    ∀ b0 rest h t, blocks = b0 :: rest →
      mapLookup b0 "height" = some (.num h) →
      mapLookup b0 "ts" = some (.num t) →
      fetchLastBlock (.response status (.parsed blocks)) = .ok ⟨h, t⟩ := by
  constructor
  · cases blocks with
    | nil => simp [fetchLastBlock]
    | cons b0 rest =>
      rw [fetchLastBlock_parsed_cons]
      cases hh : mapLookup b0 "height" with
      | none =>
        simp only [List.cons_ne_nil, false_or]
        constructor
        · intro _
          exact ⟨b0, rest, rfl, Or.inl (by simp [hh])⟩
        · intro _
          trivial
      | some hv =>
        cases hv with
        | num hval =>
          cases ht : mapLookup b0 "ts" with
          | none =>
            simp only [List.cons_ne_nil, false_or]
            constructor
            · intro _
              exact ⟨b0, rest, rfl, Or.inr (by simp [ht])⟩
            · intro _
              trivial
          | some tv =>
            cases tv with
            | num tval =>
              simp only [List.cons_ne_nil, false_or]
              constructor
              · intro hcontra
                cases hcontra
              · rintro ⟨b0', rest', heq, hbad⟩
                obtain ⟨rfl, rfl⟩ : b0' = b0 ∧ rest' = rest := by
                  injection heq with h1 h2
                  exact ⟨h1.symm, h2.symm⟩
                rcases hbad with hbad | hbad
                · exact absurd ⟨hval, hh⟩ hbad
                · exact absurd ⟨tval, ht⟩ hbad
            | str sv =>
              simp only [List.cons_ne_nil, false_or]
              exact ⟨fun _ => ⟨b0, rest, rfl, Or.inr (by simp [ht])⟩, fun _ => trivial⟩
            | boolean bv =>
              simp only [List.cons_ne_nil, false_or]
              exact ⟨fun _ => ⟨b0, rest, rfl, Or.inr (by simp [ht])⟩, fun _ => trivial⟩
            | null =>
              simp only [List.cons_ne_nil, false_or]
              exact ⟨fun _ => ⟨b0, rest, rfl, Or.inr (by simp [ht])⟩, fun _ => trivial⟩
            | arr xs =>
              simp only [List.cons_ne_nil, false_or]
              exact ⟨fun _ => ⟨b0, rest, rfl, Or.inr (by simp [ht])⟩, fun _ => trivial⟩
            | obj fs =>
              simp only [List.cons_ne_nil, false_or]
              exact ⟨fun _ => ⟨b0, rest, rfl, Or.inr (by simp [ht])⟩, fun _ => trivial⟩
        | str sv =>
          exact ⟨fun _ => Or.inr ⟨b0, rest, rfl, Or.inl (by simp [hh])⟩, fun _ => rfl⟩
        | boolean bv =>
          exact ⟨fun _ => Or.inr ⟨b0, rest, rfl, Or.inl (by simp [hh])⟩, fun _ => rfl⟩
        | null =>
          exact ⟨fun _ => Or.inr ⟨b0, rest, rfl, Or.inl (by simp [hh])⟩, fun _ => rfl⟩
        | arr xs =>
          exact ⟨fun _ => Or.inr ⟨b0, rest, rfl, Or.inl (by simp [hh])⟩, fun _ => rfl⟩
        | obj fs =>
          exact ⟨fun _ => Or.inr ⟨b0, rest, rfl, Or.inl (by simp [hh])⟩, fun _ => rfl⟩
  · intro b0 rest h t heq hh ht
    subst heq
    rw [fetchLastBlock_parsed_cons, hh, ht]

/-- C8 witness: the payload of one object with `height = 100` and
`ts = 1700000000000` yields exactly that block. -/
theorem fetchLastBlock_schema_witness :
    fetchLastBlock
        (.response 200 (.parsed [[("height", Json.num 100), ("ts", Json.num 1700000000000)]])) =
      .ok ⟨100, 1700000000000⟩ :=
  (fetchLastBlock_schema 200 [[("height", Json.num 100), ("ts", Json.num 1700000000000)]]).2
    [("height", Json.num 100), ("ts", Json.num 1700000000000)] [] 100 1700000000000
    rfl rfl rfl

/-- C9 counterexample: a non-2xx response (status 500) whose body decodes
to a well-formed array yields a block, not a fetch error — the status code
is never checked. -/
theorem non2xx_response_not_fetch_error :
    fetchLastBlock (.response 500 (.parsed [[("height", Json.num 1), ("ts", Json.num 2)]])) =
      .ok ⟨1, 2⟩ := rfl

/-- C9 (amended): the `http.Get` transport error and the body-read error
yield errors distinct from the schema error, and the status code never
affects the result — a non-2xx response is processed exactly like a 200. -/
theorem transport_errors_distinct_from_schema (status : Nat) (body : Body) :
    fetchLastBlock .transportError = .error .transport ∧
    fetchLastBlock (.response status .readError) = .error .bodyRead ∧
    fetchLastBlock (.response status body) = fetchLastBlock (.response 200 body) ∧
    FetchErr.transport ≠ .unexpectedStructure ∧
    FetchErr.bodyRead ≠ .unexpectedStructure :=
  ⟨rfl, rfl, rfl, by decide, by decide⟩

/-- C10: a tick whose fetch succeeds with the acknowledged height but a
different timestamp lists no subscribers, sends nothing, returns no error
and leaves the state — stored timestamp included — unchanged; and in
general any tick that changes the state or attempts a send must have
fetched a block whose height differs from the acknowledged one. -/
theorem same_height_tick_frame (env : Env) (s b : Block)
    (hf : fetchLastBlock env.http = .ok b)
    (hh : b.height = s.height) (_hts : b.ts ≠ s.ts) :
    tryNotifyIfNewBlock env s = ⟨s, false, [], none⟩ ∧
    ∀ env2 : Env, ∀ s2 : Block,
      (tryNotifyIfNewBlock env2 s2).state ≠ s2 ∨
        (tryNotifyIfNewBlock env2 s2).attempted ≠ [] →
      ∃ b2, fetchLastBlock env2.http = .ok b2 ∧ b2.height ≠ s2.height := by
  refine ⟨tryNotify_same_height env s b hf hh, ?_⟩
  intro env2 s2 hchange
  cases hf2 : fetchLastBlock env2.http with
  | error e =>
    simp [tryNotify_fetch_error env2 s2 e hf2] at hchange
  | ok b2 =>
    refine ⟨b2, rfl, ?_⟩
    intro heq
    simp [tryNotify_same_height env2 s2 b2 hf2 heq] at hchange

/-- C10 witness: fetching height 100 with a later timestamp over an
acknowledged height-100 block changes nothing and sends nothing. -/
theorem same_height_tick_frame_witness :
    tryNotifyIfNewBlock envSameHeightLaterTs ⟨100, 1700000000000⟩ =
      ⟨⟨100, 1700000000000⟩, false, [], none⟩ :=
  (same_height_tick_frame envSameHeightLaterTs ⟨100, 1700000000000⟩ ⟨100, 1700000600000⟩
    rfl rfl (by decide)).1

end P2pool
